import Mathlib

/-!
Shallow embedding of `scripts/tg_notify.py` (function `send_telegram_file`).

The script reads credentials and metadata from the environment and `sys.argv`,
locates the first `output/*.zip` artifact, builds an HTML caption, performs one
HTTP multipart POST to the Telegram `sendDocument` endpoint, and reports the
outcome through its exit code.  The run is modelled as a pure function of the
environment, the argument vector and a `World` describing the filesystem and
the network's behaviour for this run.
-/

namespace TgNotify

/-- Python truthiness of an optional string (`os.environ.get` / argv value):
`None` and `""` are falsy, every other string is truthy. -/
def pyTruthy : Option String → Bool
  | none => false
  | some t => decide (t ≠ "")

/-- The characters Python's `str.strip()` removes: exactly those with
`str.isspace()` true, i.e. the ASCII whitespace `\t \n \x0b \x0c \r` and
space, the separator controls U+001C-U+001F, next-line U+0085, no-break space
U+00A0, and the Unicode space characters U+1680, U+2000-U+200A, U+2028,
U+2029, U+202F, U+205F, U+3000. -/
def pySpace (c : Char) : Bool :=
  decide (c.toNat ∈ [0x9, 0xa, 0xb, 0xc, 0xd, 0x1c, 0x1d, 0x1e, 0x1f, 0x20, 0x85, 0xa0,
    0x1680, 0x2000, 0x2001, 0x2002, 0x2003, 0x2004, 0x2005, 0x2006, 0x2007, 0x2008,
    0x2009, 0x200a, 0x2028, 0x2029, 0x202f, 0x205f, 0x3000])

/-- Python `str.strip()`: drop whitespace from both ends of the string. -/
def pyStrip (s : String) : String :=
  String.mk (((s.data.dropWhile pySpace).reverse.dropWhile pySpace).reverse)

/-- POSIX `os.path.basename`: the part of the path after the last slash
(the whole path when it has no slash). -/
def basename (p : String) : String :=
  String.mk ((p.data.reverse.takeWhile (fun c => c != '/')).reverse)

/-- Round `a / d` (naturals, `0 < d`) to the nearest integer, ties to the even
neighbour.  This is the rounding IEEE doubles and Python string formatting
apply. -/
def natRoundHalfEven (a d : Nat) : Nat :=
  let q := a / d
  let r := a % d
  if 2 * r < d then q
  else if d < 2 * r then q + 1
  else if q % 2 = 0 then q else q + 1

/-- Render a hundredth-scaled natural as a two-decimal string
(`230 ↦ "2.30"`). -/
def render2dp (i : Nat) : String :=
  let frac := i % 100
  toString (i / 100) ++ "." ++ (if frac < 10 then "0" ++ toString frac else toString frac)

/-- Python `f"{num / den:.2f}"` on the exact nonnegative rational `num / den`.
In the script the value is `getsize / 1024 / 1024`: both float divisions by
1024 are exact for any realistic size (below 2^53 bytes), so the float holds
exactly `num / den` with `den = 1024 * 1024`, and `.2f` renders that exact
value rounded to two decimals, ties to even. -/
def formatDiv2 (num den : Nat) : String :=
  render2dp (natRoundHalfEven (num * 100) den)

/-- Behaviour of the one `requests.post` call in this run: either it raises an
exception carrying a message, or it returns a response with a status code and
a body text. -/
inductive NetOutcome where
  | raises (msg : String)
  | response (status : Nat) (text : String)
deriving DecidableEq

/-- Outcome of the `try:` block around the send: it either falls through
normally, raises `SystemExit` (from `sys.exit`), or raises an ordinary
`Exception`.  Python's `except Exception` catches only the last kind;
`SystemExit` derives from `BaseException` and propagates. -/
inductive BodyOutcome where
  | normal (prints : List String)
  | sysExit (prints : List String) (code : Nat)
  | raised (prints : List String) (msg : String)

/-- The body of the `try:` block (lines 57-65 of the script): post the file,
then branch on the status code. -/
def tryBody (outcome : NetOutcome) : BodyOutcome :=
  match outcome with
  | NetOutcome.raises msg => BodyOutcome.raised [] msg
  | NetOutcome.response s t =>
    if s = 200 then BodyOutcome.normal (["✅ Yield stored successfully!"])
    else BodyOutcome.sysExit (["❌ Storage failed: " ++ toString s ++ " - " ++ t]) 1

/-- The `try: ... except Exception as e:` statement (lines 56-69): the handler
catches ordinary exceptions and exits 1; a `SystemExit` from the non-200 branch
is not an `Exception` and propagates; normal fall-through ends the script with
exit code 0.  Returns the lines printed inside, paired with the exit code. -/
def runTryExcept (outcome : NetOutcome) : List String × Nat :=
  match tryBody outcome with
  | BodyOutcome.normal ps => (ps, 0)
  | BodyOutcome.sysExit ps c => (ps, c)
  | BodyOutcome.raised ps msg => (ps ++ ["❌ Transport error: " ++ msg], 1)

/-- The HTTP request the script would hand to `requests.post`: the endpoint
URL, the form fields (`chat_id`, `caption`, `parse_mode`, and the optional
`message_thread_id`), the file part and the timeout. -/
structure Request where
  url : String
  chat_id : String
  caption : String
  parse_mode : String
  message_thread_id : Option String
  documentPath : String
  timeout : Nat

/-- Observable outcome of one run of the script: process exit code, the lines
printed to stdout in order, the HTTP request performed (if any), and whether
the filesystem glob was executed. -/
structure RunResult where
  exitCode : Nat
  prints : List String
  request : Option Request
  globAttempted : Bool

/-- The environment variables the script reads; `none` means unset. -/
structure Env where
  TELEGRAM_BOT_TOKEN : Option String
  TELEGRAM_CHAT_ID : Option String
  META_HYBRID_VERSION : Option String
  GITHUB_REPOSITORY : Option String
  GITHUB_RUN_ID : Option String
  GITHUB_SERVER_URL : Option String

/-- Everything outside the process that a run can observe: the (ordered)
result of `glob.glob("output/*.zip")`, the size `os.path.getsize` reports for
each path, and the behaviour of the network for this run. -/
structure World where
  globResults : List String
  getsize : String → Nat
  netOutcome : NetOutcome

/-- Line 50 of the script: `if topic_id and topic_id.strip() != "" and
topic_id != "0":`. -/
def topicCond (topic_id : Option String) : Bool :=
  pyTruthy topic_id && decide (pyStrip (topic_id.getD ("")) ≠ "") &&
    decide (topic_id.getD ("") ≠ "0")

/-- Lines 36-42: the HTML caption.  The constant pieces are split at the
points where interpolated values are inserted; their concatenation is
character-for-character the caption the script builds. -/
def mkCaption (event_label version file_name sizeStr run_url : String) : String :=
  "🌾 <b>Meta-Hybrid: " ++ event_label ++ "</b>\n\n🧬 <b>Cultivar (品种):</b> <code>" ++
    version ++ "</code>\n🥡 <b>Yield (产物):</b> " ++ file_name ++
    "\n⚖️ <b>Weight (重量):</b> " ++ sizeStr ++ " MB" ++ "\n\n🚜 " ++
    "<a href=\x27" ++ run_url ++ "\x27>" ++ "View Field Log (查看日志)</a>"

/-- Result of the credential pre-check failing (lines 13-15). -/
def credFailResult : RunResult :=
  { exitCode := 1
    prints := ["Error: TELEGRAM_BOT_TOKEN or TELEGRAM_CHAT_ID not set."]
    request := none
    globAttempted := false }

/-- Result of the artifact check failing (lines 24-26). -/
def noFileResult : RunResult :=
  { exitCode := 1
    prints := ["Error: No grain sacks (zip files) found in output/."]
    request := none
    globAttempted := true }

/-- Lines 28-69: the part of the run after both pre-checks passed, for the
selected artifact `file_path` (the head of the glob result). -/
def mainResult (env : Env) (argv : List String) (w : World) (file_path : String) :
    RunResult :=
  let topic_id : Option String := argv.get? 0
  let event_label : String := (argv.get? 1).getD ("New Yield / 新产物")
  let version := env.META_HYBRID_VERSION.getD ("Unknown")
  let repo := env.GITHUB_REPOSITORY.getD ("")
  let run_id := env.GITHUB_RUN_ID.getD ("")
  let server_url := env.GITHUB_SERVER_URL.getD ("https://github.com")
  let run_url := server_url ++ "/" ++ repo ++ "/actions/runs/" ++ run_id
  let file_name := basename file_path
  let sizeStr := formatDiv2 (w.getsize file_path) (1024 * 1024)
  let url := "https://api.telegram.org/bot" ++ env.TELEGRAM_BOT_TOKEN.getD ("") ++
    "/sendDocument"
  let caption := mkCaption event_label version file_name sizeStr run_url
  let req : Request :=
    { url := url
      chat_id := env.TELEGRAM_CHAT_ID.getD ("")
      caption := caption
      parse_mode := "HTML"
      message_thread_id := if topicCond topic_id then topic_id else none
      documentPath := file_path
      timeout := 120 }
  let prePrints :=
    ["Selecting yield: " ++ file_name ++ " (" ++ sizeStr ++ " MB)"] ++
      (if topicCond topic_id then ["Targeting Topic ID: " ++ topic_id.getD ("")] else []) ++
      ["Dispatching yield to Granary (Telegram)..."]
  let pc := runTryExcept w.netOutcome
  { exitCode := pc.2
    prints := prePrints ++ pc.1
    request := some req
    globAttempted := true }

/-- The whole of `send_telegram_file` (lines 6-69), as a function of the
environment, `sys.argv[1:]` and the outside world. -/
def send_telegram_file (env : Env) (argv : List String) (w : World) : RunResult :=
  if !(pyTruthy env.TELEGRAM_BOT_TOKEN) || !(pyTruthy env.TELEGRAM_CHAT_ID) then
    credFailResult
  else
    match w.globResults with
    | [] => noFileResult
    | file_path :: _ => mainResult env argv w file_path

/-- The caption carried by the run's request, if a request was built. -/
def captionOf (r : RunResult) : String :=
  (r.request.map Request.caption).getD ("")

/-! ### Substring machinery -/

/-- `startsSeg p s`: the character list `p` is an initial segment of `s`. -/
def startsSeg : List Char → List Char → Bool
  | [], _ => true
  | _ :: _, [] => false
  | c :: cs, d :: ds => c == d && startsSeg cs ds

/-- `segIn p s`: the character list `p` occurs contiguously inside `s`. -/
def segIn (p : List Char) : List Char → Bool
  | [] => p.isEmpty
  | c :: rest => startsSeg p (c :: rest) || segIn p rest

/-- `strContains s pat`: the string `pat` occurs contiguously inside `s`. -/
abbrev strContains (s pat : String) : Prop :=
  segIn pat.data s.data = true

/-- Replace a credential environment value that is set to the empty string by
an absent one; any other value is unchanged. -/
def scrubEmpty (o : Option String) : Option String :=
  if o = some ("") then none else o

/-- The run-log hyperlink URL exactly as the claim words it: the plain
concatenation of the server URL, the repository slug, the literal path segment
`"/actions/runs/"`, and the run id — with no separator between the server URL
and the slug.  Declared to compare the claim's wording against the URL the
script builds. -/
def specRunUrlConcat (env : Env) : String :=
  env.GITHUB_SERVER_URL.getD ("https://github.com") ++ env.GITHUB_REPOSITORY.getD ("") ++
    "/actions/runs/" ++ env.GITHUB_RUN_ID.getD ("")

/-- Round a rational to the nearest integer, ties to the even neighbour. -/
def roundHalfEvenQ (x : ℚ) : ℤ :=
  if Int.fract x < 1 / 2 then ⌊x⌋
  else if 1 / 2 < Int.fract x then ⌊x⌋ + 1
  else if ⌊x⌋ % 2 = 0 then ⌊x⌋ else ⌊x⌋ + 1

/-- A rational value rounded to two decimal places, rendered with two
fractional digits. -/
def formatF2 (q : ℚ) : String :=
  let i := roundHalfEvenQ (q * 100)
  let frac := (i % 100).toNat
  toString (i / 100) ++ "." ++ (if frac < 10 then "0" ++ toString frac else toString frac)

/-- The size display exactly as the claim words it: the byte count divided by
1048576 (as an exact rational), rounded to two decimal places. -/
def specSizeDisplay (n : Nat) : String :=
  formatF2 ((n : ℚ) / 1048576)

/-- The control-flow-observable part of a run: exit code, whether the glob
ran, whether a request was sent, and how many lines were printed. -/
def controlView (r : RunResult) : Nat × Bool × Bool × Nat :=
  (r.exitCode, r.globAttempted, r.request.isSome, r.prints.length)

/-- Everything in the run's request except the caption text. -/
def requestSansCaption (r : RunResult) :
    Option (String × String × String × Option String × String × Nat) :=
  r.request.map (fun q =>
    (q.url, q.chat_id, q.parse_mode, q.message_thread_id, q.documentPath, q.timeout))

/-- Concrete environment with all variables set, for witnesses. -/
def envFull : Env :=
  ⟨some ("123:abc"), some ("-100"), some ("v1.2"), some ("o/r"), some ("7"), some ("https://s")⟩

/-- Concrete environment with the bot token unset, for witnesses. -/
def envNoTok : Env := ⟨none, some ("-100"), none, none, none, none⟩

/-- Concrete environment with the bot token set to the empty string. -/
def envEmptyTok : Env := ⟨some (""), some ("-100"), none, none, none, none⟩

/-- Concrete world: one artifact, network answers 200. -/
def wOk : World := ⟨["output/build.zip"], fun _ => 2097152, NetOutcome.response 200 ("ok")⟩

/-- Concrete world: one artifact, network answers 403 `Forbidden`. -/
def w403 : World := ⟨["output/build.zip"], fun _ => 2097152, NetOutcome.response 403 ("Forbidden")⟩

/-- Concrete world: one artifact, network call raises. -/
def wRaise : World :=
  ⟨["output/build.zip"], fun _ => 2097152, NetOutcome.raises ("connection refused")⟩

/-- Concrete world: no artifact in `output/`. -/
def wEmpty : World := ⟨[], fun _ => 0, NetOutcome.response 200 ("ok")⟩

theorem startsSeg_iff (p : List Char) :
    ∀ s : List Char, startsSeg p s = true ↔ ∃ t, s = p ++ t := by
  induction p with
  | nil => intro s; simp [startsSeg]
  | cons c cs ih =>
    intro s
    cases s with
    | nil => simp [startsSeg]
    | cons d ds =>
      simp only [startsSeg, Bool.and_eq_true, beq_iff_eq, ih, List.cons_append,
        List.cons.injEq]
      constructor
      · rintro ⟨h1, t, h2⟩; exact ⟨t, h1.symm, h2⟩
      · rintro ⟨t, h1, h2⟩; exact ⟨h1.symm, t, h2⟩

theorem segIn_iff (p : List Char) :
    ∀ s : List Char, segIn p s = true ↔ ∃ l r, s = l ++ p ++ r := by
  intro s
  induction s with
  | nil =>
    simp only [segIn, List.isEmpty_iff]
    constructor
    · rintro rfl; exact ⟨[], [], rfl⟩
    · rintro ⟨l, r, h⟩
      rcases List.append_eq_nil.mp h.symm with ⟨h1, h2⟩
      exact (List.append_eq_nil.mp h1).2
  | cons c rest ih =>
    simp only [segIn, Bool.or_eq_true, startsSeg_iff, ih]
    constructor
    · rintro (⟨t, h⟩ | ⟨l, r, h⟩)
      · exact ⟨[], t, by simp [h]⟩
      · exact ⟨c :: l, r, by simp [h]⟩
    · rintro ⟨l, r, h⟩
      cases l with
      | nil => exact Or.inl ⟨r, by simpa using h⟩
      | cons x xs =>
        right
        refine ⟨xs, r, ?_⟩
        have h2 : c :: rest = x :: (xs ++ p ++ r) := by simpa using h
        exact (List.cons.injEq .. ▸ h2).2

theorem strContains_iff (s pat : String) :
    strContains s pat ↔ ∃ l r, s.data = l ++ pat.data ++ r :=
  segIn_iff pat.data s.data

theorem str_data_append (a b : String) : (a ++ b).data = a.data ++ b.data := rfl

theorem str_append_assoc (a b c : String) : a ++ b ++ c = a ++ (b ++ c) := by
  cases a with
  | mk la =>
  cases b with
  | mk lb =>
  cases c with
  | mk lc =>
  show String.mk (la ++ lb ++ lc) = String.mk (la ++ (lb ++ lc))
  rw [List.append_assoc]

/-- If `s` decomposes as `x ++ pat ++ y` then `pat` occurs inside `s`. -/
theorem strContains_decomp (x pat y s : String) (h : s = x ++ pat ++ y) :
    strContains s pat := by
  subst h
  exact (strContains_iff _ _).mpr
    ⟨x.data, y.data, by simp [str_data_append, List.append_assoc]⟩

/-- If `s` decomposes as `x ++ pat` then `pat` occurs inside `s`. -/
theorem strContains_decomp2 (x pat s : String) (h : s = x ++ pat) :
    strContains s pat := by
  subst h
  exact (strContains_iff _ _).mpr ⟨x.data, [], by simp [str_data_append]⟩

/-- Two strings whose first `k` characters differ are different. -/
theorem str_ne_of_take_ne (s t : String) (k : Nat)
    (h : s.data.take k ≠ t.data.take k) : s ≠ t :=
  fun e => h (by rw [e])

/-- The first `k` characters of `b ++ x` are those of `b`, for `k` within
`b`. -/
theorem data_take_append (b x : String) (k : Nat) (hk : k ≤ b.data.length) :
    (b ++ x).data.take k = b.data.take k := by
  rw [str_data_append]
  exact List.take_append_of_le_length hk

/-! ### Reduction helpers for the run -/

theorem mainResult_exitCode (env : Env) (argv : List String) (w : World) (p : String) :
    (mainResult env argv w p).exitCode = (runTryExcept w.netOutcome).2 := rfl

theorem mainResult_globAttempted (env : Env) (argv : List String) (w : World) (p : String) :
    (mainResult env argv w p).globAttempted = true := rfl

theorem mainResult_prints (env : Env) (argv : List String) (w : World) (p : String) :
    (mainResult env argv w p).prints =
      (["Selecting yield: " ++ basename p ++ " (" ++ formatDiv2 (w.getsize p) (1024 * 1024) ++
          " MB)"] ++
        (if topicCond (argv.get? 0) then ["Targeting Topic ID: " ++ (argv.get? 0).getD ("")]
          else []) ++
        ["Dispatching yield to Granary (Telegram)..."]) ++
      (runTryExcept w.netOutcome).1 := rfl

theorem mainResult_request (env : Env) (argv : List String) (w : World) (p : String) :
    (mainResult env argv w p).request = some
      { url := "https://api.telegram.org/bot" ++ env.TELEGRAM_BOT_TOKEN.getD ("") ++
          "/sendDocument"
        chat_id := env.TELEGRAM_CHAT_ID.getD ("")
        caption := mkCaption ((argv.get? 1).getD ("New Yield / 新产物"))
          (env.META_HYBRID_VERSION.getD ("Unknown")) (basename p)
          (formatDiv2 (w.getsize p) (1024 * 1024))
          (env.GITHUB_SERVER_URL.getD ("https://github.com") ++ "/" ++
            env.GITHUB_REPOSITORY.getD ("") ++ "/actions/runs/" ++ env.GITHUB_RUN_ID.getD (""))
        parse_mode := "HTML"
        message_thread_id := if topicCond (argv.get? 0) then argv.get? 0 else none
        documentPath := p
        timeout := 120 } := rfl

theorem mainResult_requestSansCaption (env : Env) (argv : List String) (w : World)
    (p : String) :
    requestSansCaption (mainResult env argv w p) =
      some ("https://api.telegram.org/bot" ++ env.TELEGRAM_BOT_TOKEN.getD ("") ++
          "/sendDocument",
        env.TELEGRAM_CHAT_ID.getD (""), "HTML",
        if topicCond (argv.get? 0) then argv.get? 0 else none, p, 120) := rfl

theorem mainResult_caption (env : Env) (argv : List String) (w : World) (p : String) :
    captionOf (mainResult env argv w p) =
      mkCaption ((argv.get? 1).getD ("New Yield / 新产物"))
        (env.META_HYBRID_VERSION.getD ("Unknown")) (basename p)
        (formatDiv2 (w.getsize p) (1024 * 1024))
        (env.GITHUB_SERVER_URL.getD ("https://github.com") ++ "/" ++
          env.GITHUB_REPOSITORY.getD ("") ++ "/actions/runs/" ++
          env.GITHUB_RUN_ID.getD ("")) := rfl

theorem runTryExcept_response_200 (t : String) :
    runTryExcept (NetOutcome.response 200 t) = (["✅ Yield stored successfully!"], 0) := rfl

theorem runTryExcept_response_ne (s : Nat) (t : String) (h : s ≠ 200) :
    runTryExcept (NetOutcome.response s t) =
      (["❌ Storage failed: " ++ toString s ++ " - " ++ t], 1) := by
  simp [runTryExcept, tryBody, h]

theorem runTryExcept_raises (m : String) :
    runTryExcept (NetOutcome.raises m) = (["❌ Transport error: " ++ m], 1) := rfl

theorem run_credFail (env : Env) (argv : List String) (w : World)
    (h : pyTruthy env.TELEGRAM_BOT_TOKEN = false ∨ pyTruthy env.TELEGRAM_CHAT_ID = false) :
    send_telegram_file env argv w = credFailResult := by
  rcases h with h | h <;> simp [send_telegram_file, h]

theorem run_noFile (env : Env) (argv : List String) (w : World)
    (hb : pyTruthy env.TELEGRAM_BOT_TOKEN = true)
    (hc : pyTruthy env.TELEGRAM_CHAT_ID = true)
    (hg : w.globResults = []) :
    send_telegram_file env argv w = noFileResult := by
  simp [send_telegram_file, hb, hc, hg]

theorem run_main (env : Env) (argv : List String) (w : World) (file_path : String)
    (rest : List String)
    (hb : pyTruthy env.TELEGRAM_BOT_TOKEN = true)
    (hc : pyTruthy env.TELEGRAM_CHAT_ID = true)
    (hg : w.globResults = file_path :: rest) :
    send_telegram_file env argv w = mainResult env argv w file_path := by
  simp [send_telegram_file, hb, hc, hg]

/-- If the run performed a request, both pre-checks passed and the run took the
main branch on the first glob match. -/
theorem request_isSome_elim (env : Env) (argv : List String) (w : World)
    (h : (send_telegram_file env argv w).request.isSome = true) :
    ∃ file_path rest, w.globResults = file_path :: rest ∧
      pyTruthy env.TELEGRAM_BOT_TOKEN = true ∧ pyTruthy env.TELEGRAM_CHAT_ID = true ∧
      send_telegram_file env argv w = mainResult env argv w file_path := by
  by_cases hb : pyTruthy env.TELEGRAM_BOT_TOKEN = true
  · by_cases hc : pyTruthy env.TELEGRAM_CHAT_ID = true
    · cases hg : w.globResults with
      | nil =>
        rw [run_noFile env argv w hb hc hg] at h
        simp [noFileResult] at h
      | cons file_path rest =>
        exact ⟨file_path, rest, rfl, hb, hc, run_main env argv w file_path rest hb hc hg⟩
    · rw [run_credFail env argv w (Or.inr (by simpa using hc))] at h
      simp [credFailResult] at h
  · rw [run_credFail env argv w (Or.inl (by simpa using hb))] at h
    simp [credFailResult] at h

/-! ### Caption containment lemmas -/

theorem mkCaption_contains_event (e v f s u : String) :
    strContains (mkCaption e v f s u) e :=
  strContains_decomp ("🌾 <b>Meta-Hybrid: ") e
    ("</b>\n\n🧬 <b>Cultivar (品种):</b> <code>" ++ v ++
      "</code>\n🥡 <b>Yield (产物):</b> " ++ f ++ "\n⚖️ <b>Weight (重量):</b> " ++ s ++
      " MB" ++ "\n\n🚜 " ++ "<a href=\x27" ++ u ++ "\x27>" ++
      "View Field Log (查看日志)</a>") _
    (by simp only [mkCaption, str_append_assoc])

theorem mkCaption_contains_version (e v f s u : String) :
    strContains (mkCaption e v f s u) v :=
  strContains_decomp ("🌾 <b>Meta-Hybrid: " ++ e ++ "</b>\n\n🧬 <b>Cultivar (品种):</b> <code>")
    v
    ("</code>\n🥡 <b>Yield (产物):</b> " ++ f ++ "\n⚖️ <b>Weight (重量):</b> " ++ s ++
      " MB" ++ "\n\n🚜 " ++ "<a href=\x27" ++ u ++ "\x27>" ++
      "View Field Log (查看日志)</a>") _
    (by simp only [mkCaption, str_append_assoc])

theorem mkCaption_contains_file (e v f s u : String) :
    strContains (mkCaption e v f s u) f :=
  strContains_decomp ("🌾 <b>Meta-Hybrid: " ++ e ++ "</b>\n\n🧬 <b>Cultivar (品种):</b> <code>" ++
      v ++ "</code>\n🥡 <b>Yield (产物):</b> ")
    f
    ("\n⚖️ <b>Weight (重量):</b> " ++ s ++ " MB" ++ "\n\n🚜 " ++ "<a href=\x27" ++ u ++
      "\x27>" ++ "View Field Log (查看日志)</a>") _
    (by simp only [mkCaption, str_append_assoc])

theorem mkCaption_contains_size (e v f s u : String) :
    strContains (mkCaption e v f s u) (s ++ " MB") :=
  strContains_decomp ("🌾 <b>Meta-Hybrid: " ++ e ++ "</b>\n\n🧬 <b>Cultivar (品种):</b> <code>" ++
      v ++ "</code>\n🥡 <b>Yield (产物):</b> " ++ f ++ "\n⚖️ <b>Weight (重量):</b> ")
    (s ++ " MB")
    ("\n\n🚜 " ++ "<a href=\x27" ++ u ++ "\x27>" ++ "View Field Log (查看日志)</a>") _
    (by simp only [mkCaption, str_append_assoc])

theorem mkCaption_contains_size_alone (e v f s u : String) :
    strContains (mkCaption e v f s u) s :=
  strContains_decomp ("🌾 <b>Meta-Hybrid: " ++ e ++ "</b>\n\n🧬 <b>Cultivar (品种):</b> <code>" ++
      v ++ "</code>\n🥡 <b>Yield (产物):</b> " ++ f ++ "\n⚖️ <b>Weight (重量):</b> ")
    s
    (" MB" ++ "\n\n🚜 " ++ "<a href=\x27" ++ u ++ "\x27>" ++ "View Field Log (查看日志)</a>") _
    (by simp only [mkCaption, str_append_assoc])

theorem mkCaption_contains_link (e v f s u : String) :
    strContains (mkCaption e v f s u) ("<a href=\x27" ++ u ++ "\x27>") :=
  strContains_decomp ("🌾 <b>Meta-Hybrid: " ++ e ++ "</b>\n\n🧬 <b>Cultivar (品种):</b> <code>" ++
      v ++ "</code>\n🥡 <b>Yield (产物):</b> " ++ f ++ "\n⚖️ <b>Weight (重量):</b> " ++ s ++
      " MB" ++ "\n\n🚜 ")
    ("<a href=\x27" ++ u ++ "\x27>")
    ("View Field Log (查看日志)</a>") _
    (by simp only [mkCaption, str_append_assoc])

/-! ### Distinctness of the printed lines -/

/-- Two appends whose literal left parts differ within their common first `k`
characters are different strings. -/
theorem append_lit_ne (a b x y : String) (k : Nat)
    (hk1 : k ≤ a.data.length) (hk2 : k ≤ b.data.length)
    (h : a.data.take k ≠ b.data.take k) : a ++ x ≠ b ++ y := by
  apply str_ne_of_take_ne _ _ k
  rw [data_take_append a x k hk1, data_take_append b y k hk2]
  exact h

theorem sel_ne_storage (x s2 : String) :
    ("Selecting yield: " ++ x) ≠ ("❌ Storage failed: " ++ s2) :=
  append_lit_ne _ _ _ _ 1 (by decide) (by decide) (by decide)

theorem targ_ne_storage (x s2 : String) :
    ("Targeting Topic ID: " ++ x) ≠ ("❌ Storage failed: " ++ s2) :=
  append_lit_ne _ _ _ _ 1 (by decide) (by decide) (by decide)

theorem disp_ne_storage (s2 : String) :
    "Dispatching yield to Granary (Telegram)..." ≠ ("❌ Storage failed: " ++ s2) := by
  rw [← String.append_empty ("Dispatching yield to Granary (Telegram)...")]
  exact append_lit_ne _ _ _ _ 1 (by decide) (by decide) (by decide)

theorem transport_ne_sel (m x : String) :
    ("❌ Transport error: " ++ m) ≠ ("Selecting yield: " ++ x) :=
  append_lit_ne _ _ _ _ 1 (by decide) (by decide) (by decide)

theorem transport_ne_targ (m x : String) :
    ("❌ Transport error: " ++ m) ≠ ("Targeting Topic ID: " ++ x) :=
  append_lit_ne _ _ _ _ 1 (by decide) (by decide) (by decide)

theorem transport_ne_disp (m : String) :
    ("❌ Transport error: " ++ m) ≠ "Dispatching yield to Granary (Telegram)..." := by
  rw [← String.append_empty ("Dispatching yield to Granary (Telegram)...")]
  exact append_lit_ne _ _ _ _ 1 (by decide) (by decide) (by decide)

theorem transport_ne_storage (m x : String) :
    ("❌ Transport error: " ++ m) ≠ ("❌ Storage failed: " ++ x) :=
  append_lit_ne _ _ _ _ 3 (by decide) (by decide) (by decide)

/-! ### The claims -/

/-- C2: for every run in which the bot-token or chat-id environment value is
missing, the process prints a diagnostic and exits 1 before performing any
filesystem glob and before any network call. -/
theorem missing_credential_fails_fast (env : Env) (argv : List String) (w : World)
    (h : env.TELEGRAM_BOT_TOKEN = none ∨ env.TELEGRAM_CHAT_ID = none) :
    (send_telegram_file env argv w).exitCode = 1 ∧
    (send_telegram_file env argv w).prints =
      ["Error: TELEGRAM_BOT_TOKEN or TELEGRAM_CHAT_ID not set."] ∧
    (send_telegram_file env argv w).globAttempted = false ∧
    (send_telegram_file env argv w).request = none := by
  have he : send_telegram_file env argv w = credFailResult := by
    rcases h with h | h
    · exact run_credFail env argv w (Or.inl (by simp [pyTruthy, h]))
    · exact run_credFail env argv w (Or.inr (by simp [pyTruthy, h]))
  rw [he]
  exact ⟨rfl, rfl, rfl, rfl⟩

theorem missing_credential_fails_fast_witness :
    (envNoTok.TELEGRAM_BOT_TOKEN = none ∨ envNoTok.TELEGRAM_CHAT_ID = none) ∧
    ((send_telegram_file envNoTok [] wOk).exitCode = 1 ∧
      (send_telegram_file envNoTok [] wOk).prints =
        ["Error: TELEGRAM_BOT_TOKEN or TELEGRAM_CHAT_ID not set."] ∧
      (send_telegram_file envNoTok [] wOk).globAttempted = false ∧
      (send_telegram_file envNoTok [] wOk).request = none) :=
  ⟨Or.inl rfl, missing_credential_fails_fast envNoTok [] wOk (Or.inl rfl)⟩

/-- C9: a bot-token or chat-id variable that is set but equal to the empty
string behaves exactly as if the variable were absent: the run equals the run
with the empty variables scrubbed to unset, and it prints the
missing-credential diagnostic and exits 1 before any further action. -/
theorem empty_credential_like_missing (env : Env) (argv : List String) (w : World)
    (h : env.TELEGRAM_BOT_TOKEN = some ("") ∨ env.TELEGRAM_CHAT_ID = some ("")) :
    send_telegram_file env argv w =
      send_telegram_file
        { env with
          TELEGRAM_BOT_TOKEN := scrubEmpty env.TELEGRAM_BOT_TOKEN
          TELEGRAM_CHAT_ID := scrubEmpty env.TELEGRAM_CHAT_ID } argv w ∧
    (send_telegram_file env argv w).exitCode = 1 ∧
    (send_telegram_file env argv w).prints =
      ["Error: TELEGRAM_BOT_TOKEN or TELEGRAM_CHAT_ID not set."] ∧
    (send_telegram_file env argv w).globAttempted = false ∧
    (send_telegram_file env argv w).request = none := by
  have he : send_telegram_file env argv w = credFailResult := by
    rcases h with h | h
    · exact run_credFail env argv w (Or.inl (by simp [pyTruthy, h]))
    · exact run_credFail env argv w (Or.inr (by simp [pyTruthy, h]))
  have he2 : send_telegram_file
      { env with
        TELEGRAM_BOT_TOKEN := scrubEmpty env.TELEGRAM_BOT_TOKEN
        TELEGRAM_CHAT_ID := scrubEmpty env.TELEGRAM_CHAT_ID } argv w = credFailResult := by
    rcases h with h | h
    · exact run_credFail _ argv w (Or.inl (by simp [pyTruthy, scrubEmpty, h]))
    · exact run_credFail _ argv w (Or.inr (by simp [pyTruthy, scrubEmpty, h]))
  rw [he, he2]
  exact ⟨rfl, rfl, rfl, rfl, rfl⟩

theorem empty_credential_like_missing_witness :
    (envEmptyTok.TELEGRAM_BOT_TOKEN = some ("") ∨ envEmptyTok.TELEGRAM_CHAT_ID = some ("")) ∧
    (send_telegram_file envEmptyTok [] wOk =
      send_telegram_file
        { envEmptyTok with
          TELEGRAM_BOT_TOKEN := scrubEmpty envEmptyTok.TELEGRAM_BOT_TOKEN
          TELEGRAM_CHAT_ID := scrubEmpty envEmptyTok.TELEGRAM_CHAT_ID } [] wOk ∧
      (send_telegram_file envEmptyTok [] wOk).exitCode = 1 ∧
      (send_telegram_file envEmptyTok [] wOk).prints =
        ["Error: TELEGRAM_BOT_TOKEN or TELEGRAM_CHAT_ID not set."] ∧
      (send_telegram_file envEmptyTok [] wOk).globAttempted = false ∧
      (send_telegram_file envEmptyTok [] wOk).request = none) :=
  ⟨Or.inl rfl, empty_credential_like_missing envEmptyTok [] wOk (Or.inl rfl)⟩

/-- C3: for every run that passes the credential check but whose glob over
`output/*.zip` yields zero files, the process prints a diagnostic and exits 1
without attempting any network call. -/
theorem no_artifact_fails_before_network (env : Env) (argv : List String) (w : World)
    (hb : pyTruthy env.TELEGRAM_BOT_TOKEN = true)
    (hc : pyTruthy env.TELEGRAM_CHAT_ID = true)
    (hg : w.globResults = []) :
    (send_telegram_file env argv w).exitCode = 1 ∧
    (send_telegram_file env argv w).prints =
      ["Error: No grain sacks (zip files) found in output/."] ∧
    (send_telegram_file env argv w).request = none := by
  rw [run_noFile env argv w hb hc hg]
  exact ⟨rfl, rfl, rfl⟩

theorem no_artifact_fails_before_network_witness :
    pyTruthy envFull.TELEGRAM_BOT_TOKEN = true ∧
    pyTruthy envFull.TELEGRAM_CHAT_ID = true ∧
    wEmpty.globResults = [] ∧
    ((send_telegram_file envFull [] wEmpty).exitCode = 1 ∧
      (send_telegram_file envFull [] wEmpty).prints =
        ["Error: No grain sacks (zip files) found in output/."] ∧
      (send_telegram_file envFull [] wEmpty).request = none) :=
  ⟨rfl, rfl, rfl, no_artifact_fails_before_network envFull [] wEmpty rfl rfl rfl⟩

/-- C1: for every run that reaches the HTTP POST and receives a response, the
process exits 0 and prints the success message if and only if the status is
exactly 200; for any other status it prints a diagnostic containing the status
code and the response body text and exits 1. -/
theorem status_200_iff_success (env : Env) (argv : List String) (w : World)
    (s : Nat) (t : String)
    (hr : (send_telegram_file env argv w).request.isSome = true)
    (hn : w.netOutcome = NetOutcome.response s t) :
    (((send_telegram_file env argv w).exitCode = 0 ∧
        "✅ Yield stored successfully!" ∈ (send_telegram_file env argv w).prints) ↔
      s = 200) ∧
    (s ≠ 200 →
      (send_telegram_file env argv w).exitCode = 1 ∧
      ("❌ Storage failed: " ++ toString s ++ " - " ++ t) ∈
        (send_telegram_file env argv w).prints ∧
      strContains ("❌ Storage failed: " ++ toString s ++ " - " ++ t) (toString s) ∧
      strContains ("❌ Storage failed: " ++ toString s ++ " - " ++ t) t) := by
  obtain ⟨p, rest, hg, hb, hc, heq⟩ := request_isSome_elim env argv w hr
  by_cases hs : s = 200
  · subst hs
    rw [heq, mainResult_exitCode, mainResult_prints, hn, runTryExcept_response_200]
    constructor
    · apply iff_of_true
      · refine ⟨rfl, ?_⟩
        simp
      · rfl
    · intro hne
      exact absurd rfl hne
  · rw [heq, mainResult_exitCode, mainResult_prints, hn, runTryExcept_response_ne s t hs]
    constructor
    · apply iff_of_false
      · rintro ⟨h0, _⟩
        simp at h0
      · exact hs
    · intro _
      refine ⟨rfl, by simp, ?_, ?_⟩
      · exact strContains_decomp ("❌ Storage failed: ") (toString s) (" - " ++ t) _
          (by simp only [str_append_assoc])
      · exact strContains_decomp2 ("❌ Storage failed: " ++ toString s ++ " - ") t _ rfl

theorem status_200_iff_success_witness :
    (send_telegram_file envFull [] wOk).request.isSome = true ∧
    wOk.netOutcome = NetOutcome.response 200 ("ok") ∧
    ((((send_telegram_file envFull [] wOk).exitCode = 0 ∧
        "✅ Yield stored successfully!" ∈ (send_telegram_file envFull [] wOk).prints) ↔
      (200 : Nat) = 200) ∧
    ((200 : Nat) ≠ 200 →
      (send_telegram_file envFull [] wOk).exitCode = 1 ∧
      ("❌ Storage failed: " ++ toString (200 : Nat) ++ " - " ++ "ok") ∈
        (send_telegram_file envFull [] wOk).prints ∧
      strContains ("❌ Storage failed: " ++ toString (200 : Nat) ++ " - " ++ "ok")
        (toString (200 : Nat)) ∧
      strContains ("❌ Storage failed: " ++ toString (200 : Nat) ++ " - " ++ "ok") ("ok"))) :=
  ⟨by decide, rfl, status_200_iff_success envFull [] wOk 200 ("ok") (by decide) rfl⟩

/-- C5: for every run in which the network call raises an exception, the
exception is caught by the handler, a diagnostic carrying its message is
printed, and the process exits 1. -/
theorem transport_exception_caught (env : Env) (argv : List String) (w : World)
    (msg : String)
    (hr : (send_telegram_file env argv w).request.isSome = true)
    (hn : w.netOutcome = NetOutcome.raises msg) :
    (send_telegram_file env argv w).exitCode = 1 ∧
    ("❌ Transport error: " ++ msg) ∈ (send_telegram_file env argv w).prints ∧
    strContains ("❌ Transport error: " ++ msg) msg := by
  obtain ⟨p, rest, hg, hb, hc, heq⟩ := request_isSome_elim env argv w hr
  rw [heq, mainResult_exitCode, mainResult_prints, hn, runTryExcept_raises]
  exact ⟨rfl, by simp, strContains_decomp2 ("❌ Transport error: ") msg _ rfl⟩

theorem transport_exception_caught_witness :
    (send_telegram_file envFull [] wRaise).request.isSome = true ∧
    wRaise.netOutcome = NetOutcome.raises ("connection refused") ∧
    ((send_telegram_file envFull [] wRaise).exitCode = 1 ∧
      ("❌ Transport error: " ++ "connection refused") ∈
        (send_telegram_file envFull [] wRaise).prints ∧
      strContains ("❌ Transport error: " ++ "connection refused") ("connection refused")) :=
  ⟨by decide, rfl,
    transport_exception_caught envFull [] wRaise ("connection refused") (by decide) rfl⟩

/-- C10: on a non-200 response, the `sys.exit(1)` raised inside the `try`
block is not intercepted by the surrounding `except Exception` handler: the
remote-rejection diagnostic is printed exactly once, no transport-error
diagnostic is printed, and the exit code is 1. -/
theorem non200_exit_not_caught (env : Env) (argv : List String) (w : World)
    (s : Nat) (t : String)
    (hr : (send_telegram_file env argv w).request.isSome = true)
    (hn : w.netOutcome = NetOutcome.response s t)
    (hs : s ≠ 200) :
    (send_telegram_file env argv w).exitCode = 1 ∧
    (send_telegram_file env argv w).prints.count
      ("❌ Storage failed: " ++ toString s ++ " - " ++ t) = 1 ∧
    (∀ m : String, ("❌ Transport error: " ++ m) ∉ (send_telegram_file env argv w).prints) := by
  obtain ⟨p, rest, hg, hb, hc, heq⟩ := request_isSome_elim env argv w hr
  rw [heq, mainResult_exitCode, mainResult_prints, hn, runTryExcept_response_ne s t hs]
  refine ⟨rfl, ?_, ?_⟩
  · simp only [str_append_assoc]
    cases htc : topicCond (argv.get? 0) with
    | true =>
      simp only [eq_self_iff_true, if_true, List.count_append, List.count_cons,
        List.count_nil, beq_iff_eq]
      rw [if_neg (sel_ne_storage _ _), if_neg (targ_ne_storage _ _),
        if_neg (disp_ne_storage _)]
    | false =>
      simp only [Bool.false_eq_true, if_false, List.append_nil, List.count_append,
        List.count_cons, List.count_nil, beq_iff_eq]
      rw [if_neg (sel_ne_storage _ _), if_neg (disp_ne_storage _)]
      norm_num
  · simp only [str_append_assoc]
    intro m
    cases htc : topicCond (argv.get? 0) with
    | true =>
      intro hmem
      simp only [eq_self_iff_true, if_true, List.mem_append, List.mem_singleton,
        List.not_mem_nil, or_false] at hmem
      rcases hmem with ((h | h) | h) | h
      · exact transport_ne_sel _ _ h
      · exact transport_ne_targ _ _ h
      · exact transport_ne_disp _ h
      · exact transport_ne_storage _ _ h
    | false =>
      intro hmem
      simp only [Bool.false_eq_true, if_false, List.append_nil, List.mem_append,
        List.mem_singleton, List.not_mem_nil, or_false] at hmem
      rcases hmem with (h | h) | h
      · exact transport_ne_sel _ _ h
      · exact transport_ne_disp _ h
      · exact transport_ne_storage _ _ h

theorem non200_exit_not_caught_witness :
    (send_telegram_file envFull [] w403).request.isSome = true ∧
    w403.netOutcome = NetOutcome.response 403 ("Forbidden") ∧
    (403 : Nat) ≠ 200 ∧
    ((send_telegram_file envFull [] w403).exitCode = 1 ∧
      (send_telegram_file envFull [] w403).prints.count
        ("❌ Storage failed: " ++ toString (403 : Nat) ++ " - " ++ "Forbidden") = 1 ∧
      (∀ m : String,
        ("❌ Transport error: " ++ m) ∉ (send_telegram_file envFull [] w403).prints)) :=
  ⟨by decide, rfl, by decide,
    non200_exit_not_caught envFull [] w403 403 ("Forbidden") (by decide) rfl (by decide)⟩

/-- `topic_id and topic_id.strip() != "" and topic_id != "0"` holds exactly
when the argument is present, non-blank after trimming, and not `"0"`. -/
theorem topicCond_iff (o : Option String) :
    topicCond o = true ↔ ∃ tp, o = some tp ∧ pyStrip tp ≠ "" ∧ tp ≠ "0" := by
  cases o with
  | none => simp [topicCond, pyTruthy]
  | some tp =>
    simp only [topicCond, pyTruthy, Option.getD_some, Bool.and_eq_true, decide_eq_true_eq,
      Option.some.injEq]
    constructor
    · rintro ⟨⟨_, h2⟩, h3⟩
      exact ⟨tp, rfl, h2, h3⟩
    · rintro ⟨tp2, heq2, h2, h3⟩
      cases heq2
      refine ⟨⟨?_, h2⟩, h3⟩
      intro he
      apply h2
      rw [he]
      rfl

/-- C4: the outgoing payload carries a `message_thread_id` field if and only
if the topic-id argument is present, non-blank after trimming, and not equal
to the literal string `"0"`. -/
theorem thread_field_iff_topic (env : Env) (argv : List String) (w : World)
    (h : (send_telegram_file env argv w).request.isSome = true) :
    ((send_telegram_file env argv w).request.bind Request.message_thread_id).isSome = true ↔
      ∃ tp, argv.get? 0 = some tp ∧ pyStrip tp ≠ "" ∧ tp ≠ "0" := by
  obtain ⟨p, rest, hg, hb, hc, heq⟩ := request_isSome_elim env argv w h
  rw [heq, mainResult_request, Option.some_bind]
  rw [← topicCond_iff]
  show (if topicCond (argv.get? 0) then argv.get? 0 else none).isSome = true ↔
    topicCond (argv.get? 0) = true
  cases htc : topicCond (argv.get? 0) with
  | true =>
    simp only [if_true]
    obtain ⟨tp, hp, _, _⟩ := (topicCond_iff (argv.get? 0)).mp htc
    rw [hp]
    simp
  | false =>
    simp

theorem thread_field_iff_topic_witness :
    (send_telegram_file envFull ["5"] wOk).request.isSome = true ∧
    (((send_telegram_file envFull ["5"] wOk).request.bind Request.message_thread_id).isSome =
        true ↔
      ∃ tp, ["5"].get? 0 = some tp ∧ pyStrip tp ≠ "" ∧ tp ≠ "0") :=
  ⟨by decide, thread_field_iff_topic envFull ["5"] wOk (by decide)⟩

/-- C6 (amended): the caption contains the event label, the version string,
the artifact file name, and the formatted size string exactly as computed,
plus a hyperlink whose URL is the concatenation of the server URL, a `"/"`
separator, the repository slug, the literal path segment `"/actions/runs/"`,
and the run id. -/
theorem caption_fields_and_link (env : Env) (argv : List String) (w : World)
    (p : String) (rest : List String)
    (hb : pyTruthy env.TELEGRAM_BOT_TOKEN = true)
    (hc : pyTruthy env.TELEGRAM_CHAT_ID = true)
    (hg : w.globResults = p :: rest) :
    strContains (captionOf (send_telegram_file env argv w))
      ((argv.get? 1).getD ("New Yield / 新产物")) ∧
    strContains (captionOf (send_telegram_file env argv w))
      (env.META_HYBRID_VERSION.getD ("Unknown")) ∧
    strContains (captionOf (send_telegram_file env argv w)) (basename p) ∧
    strContains (captionOf (send_telegram_file env argv w))
      (formatDiv2 (w.getsize p) (1024 * 1024)) ∧
    strContains (captionOf (send_telegram_file env argv w))
      ("<a href=\x27" ++
        (env.GITHUB_SERVER_URL.getD ("https://github.com") ++ "/" ++
          env.GITHUB_REPOSITORY.getD ("") ++ "/actions/runs/" ++
          env.GITHUB_RUN_ID.getD ("")) ++ "\x27>") := by
  rw [run_main env argv w p rest hb hc hg, mainResult_caption]
  exact ⟨mkCaption_contains_event .., mkCaption_contains_version ..,
    mkCaption_contains_file .., mkCaption_contains_size_alone ..,
    mkCaption_contains_link ..⟩

theorem caption_fields_and_link_witness :
    pyTruthy envFull.TELEGRAM_BOT_TOKEN = true ∧
    pyTruthy envFull.TELEGRAM_CHAT_ID = true ∧
    wOk.globResults = "output/build.zip" :: [] ∧
    (strContains (captionOf (send_telegram_file envFull [] wOk))
      (([] : List String).get? 1 |>.getD ("New Yield / 新产物")) ∧
    strContains (captionOf (send_telegram_file envFull [] wOk))
      (envFull.META_HYBRID_VERSION.getD ("Unknown")) ∧
    strContains (captionOf (send_telegram_file envFull [] wOk))
      (basename ("output/build.zip")) ∧
    strContains (captionOf (send_telegram_file envFull [] wOk))
      (formatDiv2 (wOk.getsize ("output/build.zip")) (1024 * 1024)) ∧
    strContains (captionOf (send_telegram_file envFull [] wOk))
      ("<a href=\x27" ++
        (envFull.GITHUB_SERVER_URL.getD ("https://github.com") ++ "/" ++
          envFull.GITHUB_REPOSITORY.getD ("") ++ "/actions/runs/" ++
          envFull.GITHUB_RUN_ID.getD ("")) ++ "\x27>")) :=
  ⟨rfl, rfl, rfl, caption_fields_and_link envFull [] wOk ("output/build.zip") [] rfl rfl rfl⟩

/-- C6 counterexample: at a concrete input the caption does not contain a
hyperlink whose URL is the plain concatenation of the server URL, the
repository slug, `"/actions/runs/"`, and the run id: the script inserts a
`"/"` between the server URL and the slug, so the claimed URL is absent. -/
theorem caption_link_plain_concat_fails :
    (send_telegram_file envFull [] wOk).request.isSome = true ∧
    specRunUrlConcat envFull = "https://so/r/actions/runs/7" ∧
    ¬ strContains (captionOf (send_telegram_file envFull [] wOk))
        ("<a href=\x27" ++ specRunUrlConcat envFull ++ "\x27>") :=
  ⟨by decide, by decide, by decide⟩

/-- Rounding the exact rational `a / d` half-to-even agrees with the natural
number computation the embedding uses. -/
theorem roundHalfEvenQ_natCast_div (a d : Nat) (hd : 0 < d) :
    roundHalfEvenQ ((a : ℚ) / (d : ℚ)) = ((natRoundHalfEven a d : Nat) : ℤ) := by
  have hdq : (0 : ℚ) < (d : ℚ) := by exact_mod_cast hd
  have hfl : ⌊(a : ℚ) / (d : ℚ)⌋ = ((a / d : ℕ) : ℤ) := by
    rw [show ((a : ℚ)) = (((a : ℤ) : ℚ)) from by push_cast; ring,
      Rat.floor_intCast_div_natCast]
    exact (Int.ofNat_ediv a d).symm
  have hfr : Int.fract ((a : ℚ) / (d : ℚ)) = ((a % d : ℕ) : ℚ) / (d : ℚ) :=
    Int.fract_div_natCast_eq_div_natCast_mod
  have h1 : Int.fract ((a : ℚ) / (d : ℚ)) < 1 / 2 ↔ 2 * (a % d) < d := by
    rw [hfr, div_lt_div_iff₀ hdq (by norm_num : (0 : ℚ) < 2), one_mul,
      show ((a % d : ℕ) : ℚ) * 2 = ((2 * (a % d) : ℕ) : ℚ) from by push_cast; ring]
    exact Nat.cast_lt
  have h2 : 1 / 2 < Int.fract ((a : ℚ) / (d : ℚ)) ↔ d < 2 * (a % d) := by
    rw [hfr, div_lt_div_iff₀ (by norm_num : (0 : ℚ) < 2) hdq, one_mul,
      show ((a % d : ℕ) : ℚ) * 2 = ((2 * (a % d) : ℕ) : ℚ) from by push_cast; ring]
    exact Nat.cast_lt
  have h3 : (⌊(a : ℚ) / (d : ℚ)⌋ % 2 = 0) ↔ ((a / d) % 2 = 0) := by
    rw [hfl, show (((a / d : ℕ) : ℤ)) % 2 = (((a / d) % 2 : ℕ) : ℤ) from
      (Int.ofNat_emod (a / d) 2).symm]
    exact Nat.cast_eq_zero
  simp only [roundHalfEvenQ, natRoundHalfEven]
  by_cases hlt : 2 * (a % d) < d
  · rw [if_pos (h1.mpr hlt), if_pos hlt, hfl]
  · rw [if_neg (fun hcon => hlt (h1.mp hcon)), if_neg hlt]
    by_cases hgt : d < 2 * (a % d)
    · rw [if_pos (h2.mpr hgt), if_pos hgt, hfl]
      push_cast
      ring
    · rw [if_neg (fun hcon => hgt (h2.mp hcon)), if_neg hgt]
      by_cases hev : (a / d) % 2 = 0
      · rw [if_pos (h3.mpr hev), if_pos hev, hfl]
      · rw [if_neg (fun hcon => hev (h3.mp hcon)), if_neg hev, hfl]
        push_cast
        ring

/-- Formatting the exact rational `a / d` to two decimals agrees with the
natural number formatter used in the embedding. -/
theorem formatF2_natCast_div (a d : Nat) (hd : 0 < d) :
    formatF2 ((a : ℚ) / (d : ℚ)) = formatDiv2 a d := by
  have hM : ((a : ℚ) / (d : ℚ)) * 100 = ((a * 100 : ℕ) : ℚ) / (d : ℚ) := by
    push_cast
    ring
  simp only [formatF2, formatDiv2, render2dp, hM,
    roundHalfEvenQ_natCast_div (a * 100) d hd]
  rw [show (((natRoundHalfEven (a * 100) d : Nat) : ℤ)) / 100 =
      ((natRoundHalfEven (a * 100) d / 100 : ℕ) : ℤ) from
    (Int.ofNat_ediv _ 100).symm]
  rw [show (((natRoundHalfEven (a * 100) d : Nat) : ℤ)) % 100 =
      ((natRoundHalfEven (a * 100) d % 100 : ℕ) : ℤ) from
    (Int.ofNat_emod _ 100).symm]
  rw [Int.toNat_ofNat]
  rfl

/-- The spec's `n / 1048576` display equals the script's `n / 1024 / 1024`
display. -/
theorem specSizeDisplay_eq_formatDiv2 (n : Nat) :
    specSizeDisplay n = formatDiv2 n (1024 * 1024) := by
  have h1 : ((1048576 : ℕ) : ℚ) = (1048576 : ℚ) := by norm_num
  have h2 : formatDiv2 n 1048576 = formatDiv2 n (1024 * 1024) := by norm_num
  rw [specSizeDisplay, ← h1, formatF2_natCast_div n 1048576 (by norm_num), h2]

/-- C7: for every displayed artifact of `n` bytes, the displayed size string
equals `n / 1048576` rounded to two decimal places, both in the selection line
and embedded in the caption. -/
theorem size_display_matches_spec (env : Env) (argv : List String) (w : World)
    (p : String) (rest : List String)
    (hb : pyTruthy env.TELEGRAM_BOT_TOKEN = true)
    (hc : pyTruthy env.TELEGRAM_CHAT_ID = true)
    (hg : w.globResults = p :: rest) :
    ("Selecting yield: " ++ basename p ++ " (" ++ specSizeDisplay (w.getsize p) ++ " MB)") ∈
      (send_telegram_file env argv w).prints ∧
    strContains (captionOf (send_telegram_file env argv w))
      (specSizeDisplay (w.getsize p) ++ " MB") := by
  rw [run_main env argv w p rest hb hc hg, mainResult_prints, mainResult_caption,
    specSizeDisplay_eq_formatDiv2]
  exact ⟨by simp, mkCaption_contains_size ..⟩

theorem size_display_matches_spec_witness :
    pyTruthy envFull.TELEGRAM_BOT_TOKEN = true ∧
    pyTruthy envFull.TELEGRAM_CHAT_ID = true ∧
    wOk.globResults = "output/build.zip" :: [] ∧
    specSizeDisplay 2097152 = "2.00" ∧
    (("Selecting yield: " ++ basename ("output/build.zip") ++ " (" ++
        specSizeDisplay (wOk.getsize ("output/build.zip")) ++ " MB)") ∈
      (send_telegram_file envFull [] wOk).prints ∧
    strContains (captionOf (send_telegram_file envFull [] wOk))
      (specSizeDisplay (wOk.getsize ("output/build.zip")) ++ " MB")) :=
  ⟨rfl, rfl, rfl, by rw [specSizeDisplay_eq_formatDiv2]; decide,
    size_display_matches_spec envFull [] wOk ("output/build.zip") [] rfl rfl rfl⟩

/-- C8: two runs identical except for the artifact byte counts make exactly
the same control decisions: same exit code, same glob and request attempts,
same number of printed lines, and requests identical in every field except the
caption text. -/
theorem size_noninterference (env : Env) (argv gl : List String)
    (f g : String → Nat) (net : NetOutcome) :
    controlView (send_telegram_file env argv ⟨gl, f, net⟩) =
      controlView (send_telegram_file env argv ⟨gl, g, net⟩) ∧
    requestSansCaption (send_telegram_file env argv ⟨gl, f, net⟩) =
      requestSansCaption (send_telegram_file env argv ⟨gl, g, net⟩) := by
  by_cases hb : pyTruthy env.TELEGRAM_BOT_TOKEN = true
  · by_cases hc : pyTruthy env.TELEGRAM_CHAT_ID = true
    · cases gl with
      | nil =>
        rw [run_noFile env argv ⟨[], f, net⟩ hb hc rfl,
          run_noFile env argv ⟨[], g, net⟩ hb hc rfl]
        exact ⟨rfl, rfl⟩
      | cons p rest =>
        rw [run_main env argv ⟨p :: rest, f, net⟩ p rest hb hc rfl,
          run_main env argv ⟨p :: rest, g, net⟩ p rest hb hc rfl]
        constructor
        · unfold controlView
          simp only [mainResult_exitCode, mainResult_globAttempted, mainResult_request,
            mainResult_prints]
          simp [List.length_append]
        · simp only [mainResult_requestSansCaption]
    · have hcf : pyTruthy env.TELEGRAM_CHAT_ID = false := by simpa using hc
      rw [run_credFail env argv ⟨gl, f, net⟩ (Or.inr hcf),
        run_credFail env argv ⟨gl, g, net⟩ (Or.inr hcf)]
      exact ⟨rfl, rfl⟩
  · have hbf : pyTruthy env.TELEGRAM_BOT_TOKEN = false := by simpa using hb
    rw [run_credFail env argv ⟨gl, f, net⟩ (Or.inl hbf),
      run_credFail env argv ⟨gl, g, net⟩ (Or.inl hbf)]
    exact ⟨rfl, rfl⟩

end TgNotify
